import Mathlib

/-!
Verification of the Seat Heater Control System (TM4C123GH6PM / FreeRTOS).

Shallow embedding of `main.c` of the application project.  The two seat
channels (driver, passenger) run textually identical control logic except
where noted (the diagnostic tasks differ in statement order); shared logic
is embedded once, parametrised by the per-seat constants.  `uint8`
quantities are modelled as `Nat`; the only place where the 8-bit
representation matters (the diagnostic index increment) carries an
explicit `% 256`.
-/

/- Constants from main.c lines 39-90. -/

def mainHEATER_STATE_OFF : Nat := 0
def mainHEATER_STATE_LOW : Nat := 1
def mainHEATER_STATE_MEDIUM : Nat := 2
def mainHEATER_STATE_HIGH : Nat := 3

def mainHEATING_LEVEL_OFF : Nat := 0
def mainHEATING_LEVEL_LOW : Nat := 1
def mainHEATING_LEVEL_MEDIUM : Nat := 2
def mainHEATING_LEVEL_HIGH : Nat := 3

def mainTEMP_MAX_VALID_RANGE : Nat := 40
def mainTEMP_MIN_VALID_RANGE : Nat := 5

def mainDESIRED_TEMP_OFF : Nat := 0
def mainDESIRED_TEMP_LOW : Nat := 25
def mainDESIRED_TEMP_MEDIUM : Nat := 30
def mainDESIRED_TEMP_HIGH : Nat := 35

def mainTEMP_OVER_RANGE_FAIL : Nat := 0x44
def mainTEMP_UNDER_RANGE_FAIL : Nat := 0x55
def mainDRIVER_SEAT_FAIL : Nat := 0x66
def mainPASSENGER_SEAT_FAIL : Nat := 0x77

def mainDIAGNOSTIC_SIZE : Nat := 5

def mainTEMP_DIFF_LOW_THRESHOLD : Nat := 2
def mainTEMP_DIFF_MEDIUM_THRESHOLD : Nat := 5
def mainTEMP_DIFF_HIGH_THRESHOLD : Nat := 10

def mainTOTAL_HEATING_LEVELS : Nat := 4

/-- Failure record structure `xFailureLog` (main.c lines 100-106). -/
structure xFailureLog where
  uiTimeStamp : Nat
  ucFailureCode : Nat
  ucFailureSeat : Nat
  ucHeatingLevel : Nat
deriving DecidableEq, Repr

/-!
Heater Intensity Controller: body of `vDriverHeaterProcessTask`
(main.c lines 661-697) and, identically, of `vPassengerHeatersProcessTask`
(lines 770-806).  The result is the value the cycle stores into
`ucDriverHeaterState`.  Note that when heating is enabled, no fault is
active, `desired >= current` and the difference is below the low
threshold, none of the three threshold branches fires, so the shared
heater-state variable keeps its previous value (passed here as
`ucHeaterState`).
-/
def heaterProcessCompute (ucHeatingLevel ucDesiredTemperature ucTemperatureValue : Nat)
    (ucErrorFlag : Bool) (ucHeaterState : Nat) : Nat :=
  if ucHeatingLevel ≠ mainHEATING_LEVEL_OFF ∧ ucErrorFlag = false then
    if ucDesiredTemperature ≥ ucTemperatureValue then
      let tempDiff := ucDesiredTemperature - ucTemperatureValue
      if mainTEMP_DIFF_LOW_THRESHOLD ≤ tempDiff ∧ tempDiff < mainTEMP_DIFF_MEDIUM_THRESHOLD then
        mainHEATER_STATE_LOW
      else if mainTEMP_DIFF_MEDIUM_THRESHOLD ≤ tempDiff ∧ tempDiff < mainTEMP_DIFF_HIGH_THRESHOLD then
        mainHEATER_STATE_MEDIUM
      else if mainTEMP_DIFF_HIGH_THRESHOLD ≤ tempDiff then
        mainHEATER_STATE_HIGH
      else
        ucHeaterState
    else
      mainHEATER_STATE_OFF
  else
    mainHEATER_STATE_OFF

/-- Snapshot of the shared fields a heater-controller cycle reads (taken
under the four mutexes at main.c lines 656-659 / 766-769). -/
structure HeaterEnv where
  ucHeatingLevel : Nat
  ucDesiredTemperature : Nat
  ucTemperatureValue : Nat
  ucErrorFlag : Bool
deriving DecidableEq, Repr

/-- One full controller cycle (main.c lines 661-730): compute the new
heater state, then decide whether the LEDs are re-driven
(`(ucPrevDriverHeaterState != ucDriverHeaterState) || (ucDriverErrorFlag == pdTRUE)`,
line 700) and update the task-local previous-state shadow.  Returns
(new heater state, new shadow, whether an actuator write was issued). -/
def heaterTaskStep (ucPrevHeaterState ucHeaterState : Nat) (e : HeaterEnv) :
    Nat × Nat × Bool :=
  let newState := heaterProcessCompute e.ucHeatingLevel e.ucDesiredTemperature
      e.ucTemperatureValue e.ucErrorFlag ucHeaterState
  if ucPrevHeaterState ≠ newState ∨ e.ucErrorFlag = true then
    (newState, newState, true)
  else
    (newState, ucPrevHeaterState, false)

/-- Successive heater states written by a run of controller cycles,
starting from shared heater state `h0` (the shadow is irrelevant to the
state sequence). -/
def heaterStateRun (h0 : Nat) : List HeaterEnv → List Nat
  | [] => []
  | e :: es =>
    let h1 := heaterProcessCompute e.ucHeatingLevel e.ucDesiredTemperature
        e.ucTemperatureValue e.ucErrorFlag h0
    h1 :: heaterStateRun h1 es

/-- Whether each cycle of a controller run issues an actuator write,
threading both the shared heater state and the task-local shadow (the
shadow starts at `0xFF`, main.c line 651 / 761). -/
def heaterWriteRun (ucPrevHeaterState ucHeaterState : Nat) : List HeaterEnv → List Bool
  | [] => []
  | e :: es =>
    let r := heaterTaskStep ucPrevHeaterState ucHeaterState e
    r.2.2 :: heaterWriteRun r.2.1 r.1 es

example : heaterProcessCompute 1 30 22 false 0 = mainHEATER_STATE_MEDIUM := by decide
example : heaterProcessCompute 1 25 24 false 1 = 1 := by decide
example : heaterProcessCompute 1 25 24 false 0 = 0 := by decide
example : heaterProcessCompute 3 35 45 false 2 = mainHEATER_STATE_OFF := by decide
example : heaterProcessCompute 3 35 20 true 2 = mainHEATER_STATE_OFF := by decide

/-!
Sensor Sampler and Fault Detector: body of `vDriverSensorProcessTask`
(main.c lines 346-406) and, identically up to the per-seat constants, of
`vPassengerSensorsProcessTask` (lines 429-488).
-/

/-- Externally visible actions a sensor cycle can perform: pushing a
failure record to the diagnostic queue (`xQueueSend`, line 390), giving
the error-report semaphore (line 393), and switching the red fault LED
off on recovery (`Led_RED1_SetOff`, line 400). -/
inductive SensorAction where
  | pushRecord (xlog : xFailureLog)
  | giveErrorSemaphore
  | faultLedOff
deriving DecidableEq, Repr

def SensorAction.isPushRecord : SensorAction → Bool
  | .pushRecord _ => true
  | _ => false

def SensorAction.isGiveErrorSemaphore : SensorAction → Bool
  | .giveErrorSemaphore => true
  | _ => false

/-- Per-cycle inputs of the sampler: the raw reading returned by
`LM35_getTemperature`, the channel's heating level and the timer value
`GPTM_WTimer0Read()` captured into the failure record. -/
structure SensorInput where
  reading : Nat
  ucHeatingLevel : Nat
  uiTimeStamp : Nat
deriving DecidableEq, Repr

/-- One sampler cycle for the channel with seat code `seat`
(main.c lines 346-401): stores the reading, then on an out-of-range
reading with the error flag clear builds the failure record, sets the
flag, pushes the record and signals the diagnostic task; on an in-range
reading with the flag set, clears the flag and the fault LED.  Returns
(new error flag, actions performed in program order). -/
def sensorProcessCycle (seat : Nat) (ucErrorFlag : Bool) (i : SensorInput) :
    Bool × List SensorAction :=
  if i.reading > mainTEMP_MAX_VALID_RANGE ∨ i.reading < mainTEMP_MIN_VALID_RANGE then
    if ucErrorFlag = false then
      let ucFailureCode :=
        if i.reading > mainTEMP_MAX_VALID_RANGE then mainTEMP_OVER_RANGE_FAIL
        else mainTEMP_UNDER_RANGE_FAIL
      let xlog : xFailureLog :=
        { uiTimeStamp := i.uiTimeStamp, ucFailureCode := ucFailureCode,
          ucFailureSeat := seat, ucHeatingLevel := i.ucHeatingLevel }
      (true, [SensorAction.pushRecord xlog, SensorAction.giveErrorSemaphore])
    else
      (ucErrorFlag, [])
  else
    if ucErrorFlag = true then
      (false, [SensorAction.faultLedOff])
    else
      (ucErrorFlag, [])

/-- A run of successive sampler cycles: final error flag and the
concatenation of all actions in order. -/
def sensorRun (seat : Nat) (ucErrorFlag : Bool) : List SensorInput → Bool × List SensorAction
  | [] => (ucErrorFlag, [])
  | i :: is =>
    let r1 := sensorProcessCycle seat ucErrorFlag i
    let r2 := sensorRun seat r1.1 is
    (r2.1, r1.2 ++ r2.2)

example : (sensorRun mainDRIVER_SEAT_FAIL false
    [⟨45, 3, 7⟩, ⟨45, 3, 8⟩, ⟨45, 3, 9⟩]).1 = true := by decide
example : ((sensorRun mainDRIVER_SEAT_FAIL false
    [⟨45, 3, 7⟩, ⟨45, 3, 8⟩, ⟨45, 3, 9⟩]).2.filter SensorAction.isPushRecord).length = 1 := by
  decide

/-!
Fault Diagnostic Logger: `vDriverDiagnosticTask` (main.c lines 858-904)
and `vPassengerDiagnosticTask` (lines 913-957).  The diagnostic history
is the 5-element array `xDiagnosticArray` with the `uint8` write index
`ucDiagnosticIndex` (lines 139-140); an append stores the record at
`ucDiagnosticIndex` and then increments the index with no bound check
(lines 890-894 / 934-938).
-/

/-- The sequence of array indices written by `n` successive appends to
`xDiagnosticArray`, starting from `ucDiagnosticIndex = idx` (the index
is a `uint8`, hence the `% 256` on the increment). -/
def diagWriteIndices (idx : Nat) : Nat → List Nat
  | 0 => []
  | n + 1 => idx :: diagWriteIndices ((idx + 1) % 256) n

/-- The value of `ucDiagnosticIndex` after `n` appends starting from `idx`. -/
def diagIndexAfter (idx : Nat) : Nat → Nat
  | 0 => idx
  | n + 1 => diagIndexAfter ((idx + 1) % 256) n

example : diagWriteIndices 0 6 = [0, 1, 2, 3, 4, 5] := by decide
example : diagIndexAfter 0 6 = 6 := by decide

/-- Steps of one wake of a diagnostic task, as externally observable
events: forcing the channel's heater state to `Off` under its mutex,
draining one failure record from the handoff queue and appending it to
the history, and switching the red fault LED on. -/
inductive DiagEvent where
  | forceHeaterOff
  | drainRecord
  | faultLedOn
deriving DecidableEq, Repr

/-- Event order of one wake of `vDriverDiagnosticTask` (main.c lines
869-902): heater forced off (line 878), queue drained and appended
(lines 887-894), red LED on (line 902). -/
def vDriverDiagnosticCycleEvents : List DiagEvent :=
  [DiagEvent.forceHeaterOff, DiagEvent.drainRecord, DiagEvent.faultLedOn]

/-- Event order of one wake of `vPassengerDiagnosticTask` (main.c lines
924-955): queue drained and appended first (lines 931-938), heater
forced off only afterwards (line 947), red LED on (line 955). -/
def vPassengerDiagnosticCycleEvents : List DiagEvent :=
  [DiagEvent.drainRecord, DiagEvent.forceHeaterOff, DiagEvent.faultLedOn]

/-!
Level Selector: the button interrupt handlers `GPIO_PORTF_Handler`
(main.c lines 1145-1203) and `GPIO_PORTB_Handler` (lines 1212 ff.)
increment the channel's heating level modulo 4 and set an event-group
bit; the button tasks `vDriverButtonsProcessTask` (lines 501-560) and
`vPassengerButtonProcessTask` (lines 571-630) wake on that bit and
recompute the desired temperature from the level.
-/

/-- Desired-temperature update performed by the button task (main.c
lines 540-555 / 610-625).  The `if`/`else if` chain has no final `else`,
so a level outside 0..3 would leave the previous desired temperature in
place; `old` is that previous value. -/
def desiredTempUpdate (ucHeatingLevel old : Nat) : Nat :=
  if ucHeatingLevel = mainHEATING_LEVEL_OFF then mainDESIRED_TEMP_OFF
  else if ucHeatingLevel = mainHEATING_LEVEL_LOW then mainDESIRED_TEMP_LOW
  else if ucHeatingLevel = mainHEATING_LEVEL_MEDIUM then mainDESIRED_TEMP_MEDIUM
  else if ucHeatingLevel = mainHEATING_LEVEL_HIGH then mainDESIRED_TEMP_HIGH
  else old

/-- The spec's fixed mapping `{Off→0, Low→25, Medium→30, High→35}`,
stated from the spec's words as the comparator for the cache-coherence
claims about `desiredTemperature`. -/
def specDesiredMapping (ucHeatingLevel : Nat) : Nat :=
  if ucHeatingLevel = 0 then 0
  else if ucHeatingLevel = 1 then 25
  else if ucHeatingLevel = 2 then 30
  else 35

/-- Per-channel state touched by the level-selection pipeline: the
heating level, the cached desired temperature, and whether the button
event-group bit is set (posted by the ISR, not yet consumed by the
button task). -/
structure LevelState where
  ucHeatingLevel : Nat
  ucDesiredTemperature : Nat
  eventBitPending : Bool
deriving DecidableEq, Repr

/-- System start: `ucDriverHeatingLevel = 0`, `ucDriverDesiredTemperature = 0`
(main.c lines 111, 117), no event pending. -/
def levelInitState : LevelState :=
  { ucHeatingLevel := 0, ucDesiredTemperature := 0, eventBitPending := false }

/-- Interleaving steps of the level-selection pipeline: a qualifying
button edge runs the ISR (increment the level modulo 4, set the event
bit, main.c lines 1162-1168 / 1186-1192); a button-task wake consumes a
pending bit and recomputes the desired temperature (lines 528-558).
With no bit pending the button task stays blocked in
`xEventGroupWaitBits`, leaving the state unchanged. -/
inductive LevelStep where
  | isrButtonEdge
  | buttonTaskWake
deriving DecidableEq, Repr

def levelStepRun (s : LevelState) : LevelStep → LevelState
  | .isrButtonEdge =>
    { ucHeatingLevel := (s.ucHeatingLevel + 1) % mainTOTAL_HEATING_LEVELS,
      ucDesiredTemperature := s.ucDesiredTemperature,
      eventBitPending := true }
  | .buttonTaskWake =>
    if s.eventBitPending then
      { s with
        ucDesiredTemperature := desiredTempUpdate s.ucHeatingLevel s.ucDesiredTemperature,
        eventBitPending := false }
    else s

/-- Run of the level-selection pipeline from state `s`. -/
def levelRun (s : LevelState) : List LevelStep → LevelState
  | [] => s
  | e :: es => levelRun (levelStepRun s e) es

/-- One complete control edge: the ISR fires, then the button task
processes the posted event. -/
def fullControlEdge (s : LevelState) : LevelState :=
  levelStepRun (levelStepRun s .isrButtonEdge) .buttonTaskWake

/-- Desired temperatures observed after each of `n` complete control
edges, starting from `s` (inclusive of the starting value). -/
def edgeDesiredTrace (s : LevelState) : Nat → List Nat
  | 0 => [s.ucDesiredTemperature]
  | n + 1 => s.ucDesiredTemperature :: edgeDesiredTrace (fullControlEdge s) n

example : edgeDesiredTrace levelInitState 4 = [0, 25, 30, 35, 0] := by decide
example : (levelRun levelInitState [.isrButtonEdge]).ucDesiredTemperature = 0 := by decide
example : (levelRun levelInitState [.isrButtonEdge]).ucHeatingLevel = 1 := by decide

/-!
Whole-channel interleaving machine: every write any part of main.c makes
to one channel's heating level, desired temperature, current temperature,
error flag and heater state, as an event-indexed step function.  Used for
the reachable-state range invariants.
-/

/-- All shared fields of one seat channel. -/
structure ChannelState where
  ucHeatingLevel : Nat
  ucDesiredTemperature : Nat
  ucTemperatureValue : Nat
  ucHeaterState : Nat
  ucErrorFlag : Bool
  eventBitPending : Bool
deriving DecidableEq, Repr

/-- System start (main.c lines 111-136): every field zero / false. -/
def channelInitState : ChannelState :=
  { ucHeatingLevel := 0, ucDesiredTemperature := 0, ucTemperatureValue := 0,
    ucHeaterState := mainHEATER_STATE_OFF, ucErrorFlag := false,
    eventBitPending := false }

/-- The events that mutate a channel's shared fields: a button ISR edge,
a button-task wake, a sampler cycle with raw reading `reading` at time
`ts`, a heater-controller cycle, and a diagnostic-task wake (which
forces the heater state to `Off`, main.c line 878 / 947). -/
inductive ChannelEvent where
  | isrButtonEdge
  | buttonTaskWake
  | sensorCycle (reading : Nat) (ts : Nat)
  | heaterCycle
  | diagnosticWake
deriving DecidableEq, Repr

def channelStep (seat : Nat) (s : ChannelState) : ChannelEvent → ChannelState
  | .isrButtonEdge =>
    { s with
      ucHeatingLevel := (s.ucHeatingLevel + 1) % mainTOTAL_HEATING_LEVELS,
      eventBitPending := true }
  | .buttonTaskWake =>
    if s.eventBitPending then
      { s with
        ucDesiredTemperature := desiredTempUpdate s.ucHeatingLevel s.ucDesiredTemperature,
        eventBitPending := false }
    else s
  | .sensorCycle reading ts =>
    let r := sensorProcessCycle seat s.ucErrorFlag ⟨reading, s.ucHeatingLevel, ts⟩
    { s with ucTemperatureValue := reading, ucErrorFlag := r.1 }
  | .heaterCycle =>
    { s with
      ucHeaterState := heaterProcessCompute s.ucHeatingLevel s.ucDesiredTemperature
        s.ucTemperatureValue s.ucErrorFlag s.ucHeaterState }
  | .diagnosticWake =>
    { s with ucHeaterState := mainHEATER_STATE_OFF }

/-- Run of the whole-channel machine from state `s`. -/
def channelRun (seat : Nat) (s : ChannelState) : List ChannelEvent → ChannelState
  | [] => s
  | e :: es => channelRun seat (channelStep seat s e) es

example :
    (channelRun mainDRIVER_SEAT_FAIL channelInitState
      [.isrButtonEdge, .buttonTaskWake, .sensorCycle 22 5, .heaterCycle]).ucHeaterState
      = mainHEATER_STATE_LOW := by decide
example :
    (channelRun mainDRIVER_SEAT_FAIL channelInitState
      [.isrButtonEdge, .isrButtonEdge, .buttonTaskWake, .sensorCycle 22 5,
       .heaterCycle]).ucHeaterState = mainHEATER_STATE_MEDIUM := by decide

/-- The strengthened invariant of the level-selection machine: the level
stays below 4, and whenever no button event is pending the cached
desired temperature agrees with the fixed mapping. -/
def LevelCacheInv (s : LevelState) : Prop :=
  s.ucHeatingLevel < 4 ∧
    (s.eventBitPending = false →
      s.ucDesiredTemperature = specDesiredMapping s.ucHeatingLevel)

/-- Range invariant of one channel's shared fields: the raw `uint8`
level, desired temperature and heater state only ever hold the values of
their respective enumerations. -/
def ChannelRangeInv (s : ChannelState) : Prop :=
  s.ucHeatingLevel ∈ ([0, 1, 2, 3] : List Nat) ∧
    s.ucDesiredTemperature ∈ ([0, 25, 30, 35] : List Nat) ∧
    s.ucHeaterState ∈ ([0, 1, 2, 3] : List Nat)

/-!
Helper lemmas.
-/

/-- With the error flag set, a controller cycle writes `Off` whatever the
level and temperatures are. -/
theorem heaterProcessCompute_fault (lvl d c h : Nat) :
    heaterProcessCompute lvl d c true h = mainHEATER_STATE_OFF := by
  simp [heaterProcessCompute]

/-- With the error flag already set and an out-of-range reading, a
sampler cycle performs no action and keeps the flag set. -/
theorem sensorProcessCycle_flag_held (seat : Nat) (i : SensorInput)
    (hout : i.reading > mainTEMP_MAX_VALID_RANGE ∨ i.reading < mainTEMP_MIN_VALID_RANGE) :
    sensorProcessCycle seat true i = (true, []) := by
  simp [sensorProcessCycle, hout]

/-- A run of out-of-range cycles that starts with the flag set performs
no action at all and keeps the flag set. -/
theorem sensorRun_flag_held (seat : Nat) (is : List SensorInput)
    (hout : ∀ i ∈ is, i.reading > mainTEMP_MAX_VALID_RANGE ∨ i.reading < mainTEMP_MIN_VALID_RANGE) :
    sensorRun seat true is = (true, []) := by
  induction is with
  | nil => rfl
  | cons i is ih =>
    have h1 : sensorProcessCycle seat true i = (true, []) :=
      sensorProcessCycle_flag_held seat i (hout i (List.mem_cons_self i is))
    have h2 : sensorRun seat true is = (true, []) :=
      ih fun j hj => hout j (List.mem_cons_of_mem i hj)
    simp [sensorRun, h1, h2]

theorem levelStepRun_inv (s : LevelState) (e : LevelStep) (h : LevelCacheInv s) :
    LevelCacheInv (levelStepRun s e) := by
  obtain ⟨hlt, hcache⟩ := h
  cases e with
  | isrButtonEdge =>
    refine ⟨?_, ?_⟩
    · simp [levelStepRun, mainTOTAL_HEATING_LEVELS]
      omega
    · intro hp
      simp [levelStepRun] at hp
  | buttonTaskWake =>
    by_cases hp : s.eventBitPending = true
    · refine ⟨?_, ?_⟩
      · simp [levelStepRun, hp]
        exact hlt
      · intro _
        have h4 : s.ucHeatingLevel = 0 ∨ s.ucHeatingLevel = 1 ∨
            s.ucHeatingLevel = 2 ∨ s.ucHeatingLevel = 3 := by omega
        rcases h4 with h4 | h4 | h4 | h4 <;>
          simp [levelStepRun, hp, desiredTempUpdate, specDesiredMapping, h4,
            mainHEATING_LEVEL_OFF, mainHEATING_LEVEL_LOW, mainHEATING_LEVEL_MEDIUM,
            mainHEATING_LEVEL_HIGH, mainDESIRED_TEMP_OFF, mainDESIRED_TEMP_LOW,
            mainDESIRED_TEMP_MEDIUM, mainDESIRED_TEMP_HIGH]
    · have hp' : s.eventBitPending = false := by
        cases hb : s.eventBitPending
        · rfl
        · exact absurd hb hp
      refine ⟨?_, ?_⟩ <;> simp [levelStepRun, hp'] <;> [exact hlt; exact hcache hp']

theorem levelRun_inv (steps : List LevelStep) (s : LevelState) (h : LevelCacheInv s) :
    LevelCacheInv (levelRun s steps) := by
  induction steps generalizing s with
  | nil => exact h
  | cons e es ih => exact ih _ (levelStepRun_inv s e h)

/-- The controller's output is one of the four named heater states,
provided the previous heater state was (the retained-state branch is the
only one that does not write a constant). -/
theorem heaterProcessCompute_mem (lvl d c : Nat) (f : Bool) (h : Nat)
    (hh : h ∈ ([0, 1, 2, 3] : List Nat)) :
    heaterProcessCompute lvl d c f h ∈ ([0, 1, 2, 3] : List Nat) := by
  simp only [List.mem_cons, List.not_mem_nil, or_false] at hh ⊢
  simp only [heaterProcessCompute, mainHEATER_STATE_OFF, mainHEATER_STATE_LOW,
    mainHEATER_STATE_MEDIUM, mainHEATER_STATE_HIGH]
  split_ifs <;> omega

theorem channelStep_inv (seat : Nat) (s : ChannelState) (e : ChannelEvent)
    (h : ChannelRangeInv s) : ChannelRangeInv (channelStep seat s e) := by
  obtain ⟨hl, hd, hs⟩ := h
  cases e with
  | isrButtonEdge =>
    refine ⟨?_, hd, hs⟩
    have h4 : (s.ucHeatingLevel + 1) % mainTOTAL_HEATING_LEVELS < 4 := by
      simp [mainTOTAL_HEATING_LEVELS]
      omega
    simp only [channelStep]
    simp only [List.mem_cons, List.mem_singleton] at *
    omega
  | buttonTaskWake =>
    by_cases hp : s.eventBitPending = true
    · refine ⟨?_, ?_, ?_⟩
      · simpa [channelStep, hp] using hl
      · simp only [List.mem_cons, List.not_mem_nil, or_false] at hl
        rcases hl with h4 | h4 | h4 | h4 <;>
          simp [channelStep, hp, desiredTempUpdate, h4, mainHEATING_LEVEL_OFF,
            mainHEATING_LEVEL_LOW, mainHEATING_LEVEL_MEDIUM, mainHEATING_LEVEL_HIGH,
            mainDESIRED_TEMP_OFF, mainDESIRED_TEMP_LOW, mainDESIRED_TEMP_MEDIUM,
            mainDESIRED_TEMP_HIGH]
      · simpa [channelStep, hp] using hs
    · have hp' : s.eventBitPending = false := by
        cases hb : s.eventBitPending
        · rfl
        · exact absurd hb hp
      exact ⟨by simpa [channelStep, hp'] using hl, by simpa [channelStep, hp'] using hd,
        by simpa [channelStep, hp'] using hs⟩
  | sensorCycle reading ts =>
    exact ⟨hl, hd, hs⟩
  | heaterCycle =>
    exact ⟨hl, hd, heaterProcessCompute_mem _ _ _ _ _ hs⟩
  | diagnosticWake =>
    refine ⟨hl, hd, ?_⟩
    simp [channelStep, mainHEATER_STATE_OFF]

theorem channelRun_inv (seat : Nat) (events : List ChannelEvent) (s : ChannelState)
    (h : ChannelRangeInv s) : ChannelRangeInv (channelRun seat s events) := by
  induction events generalizing s with
  | nil => exact h
  | cons e es ih => exact ih _ (channelStep_inv seat s e h)



/-!
Claim theorems.
-/

/-- C1 (counterexample): with heating level Low, no fault,
`desired = 25`, `current = 24` (so `diff = 1 < 2`) and the shared heater
state currently `Low`, one controller cycle leaves the heater state at
`Low` — it does not set it to `Off` as the claim's threshold table
requires for `diff < 2`. -/
theorem C1_threshold_table_counterexample :
    heaterProcessCompute mainHEATING_LEVEL_LOW 25 24 false mainHEATER_STATE_LOW =
        mainHEATER_STATE_LOW ∧
      mainHEATER_STATE_LOW ≠ mainHEATER_STATE_OFF := by
  decide

/-- C1 (amended): for every (desired, current) pair with no fault and
heating level not `Off`, one controller cycle computes the heater state
per the threshold table except in the `diff < 2` band, where the heater
state retains its previous value instead of being set `Off`: if
`desired < current` then `Off`; else with `diff = desired - current`,
`diff < 2` keeps the previous state, `2 ≤ diff < 5` gives `Low`,
`5 ≤ diff < 10` gives `Medium`, `diff ≥ 10` gives `High` (so the
boundaries 2, 4, 5, 9, 10, 11 land in the stated bands and `diff = 1`
keeps the previous state). -/
theorem C1_threshold_table_amended (lvl d c h : Nat)
    (hlvl : lvl ≠ mainHEATING_LEVEL_OFF) :
    heaterProcessCompute lvl d c false h =
      if d < c then mainHEATER_STATE_OFF
      else if d - c < 2 then h
      else if d - c < 5 then mainHEATER_STATE_LOW
      else if d - c < 10 then mainHEATER_STATE_MEDIUM
      else mainHEATER_STATE_HIGH := by
  simp only [heaterProcessCompute, mainHEATING_LEVEL_OFF, mainHEATER_STATE_OFF,
    mainHEATER_STATE_LOW, mainHEATER_STATE_MEDIUM, mainHEATER_STATE_HIGH,
    mainTEMP_DIFF_LOW_THRESHOLD, mainTEMP_DIFF_MEDIUM_THRESHOLD,
    mainTEMP_DIFF_HIGH_THRESHOLD] at *
  split_ifs <;> simp_all <;> omega

/-- C1 witness: the amended statement applied at level `Medium`,
`desired = 30`, `current = 20` (`diff = 10`, the High boundary). -/
theorem C1_threshold_table_amended_witness :
    mainHEATING_LEVEL_MEDIUM ≠ mainHEATING_LEVEL_OFF ∧
      heaterProcessCompute mainHEATING_LEVEL_MEDIUM 30 20 false mainHEATER_STATE_OFF =
        if (30 : Nat) < 20 then mainHEATER_STATE_OFF
        else if 30 - 20 < 2 then mainHEATER_STATE_OFF
        else if 30 - 20 < 5 then mainHEATER_STATE_LOW
        else if 30 - 20 < 10 then mainHEATER_STATE_MEDIUM
        else mainHEATER_STATE_HIGH :=
  ⟨by decide, C1_threshold_table_amended mainHEATING_LEVEL_MEDIUM 30 20
    mainHEATER_STATE_OFF (by decide)⟩

/-- C2: on every controller cycle executed while the channel's error
flag is set, the written heater state is `Off`, whatever the heating
level and the desired and current temperatures are — so the heater stays
`Off` on every cycle until the fault clears. -/
theorem C2_fault_holds_heater_off (h0 : Nat) (envs : List HeaterEnv)
    (hfault : ∀ e ∈ envs, e.ucErrorFlag = true) :
    ∀ x ∈ heaterStateRun h0 envs, x = mainHEATER_STATE_OFF := by
  induction envs generalizing h0 with
  | nil => intro x hx; cases hx
  | cons e es ih =>
    intro x hx
    have he : e.ucErrorFlag = true := hfault e (List.mem_cons_self e es)
    have hstep : heaterProcessCompute e.ucHeatingLevel e.ucDesiredTemperature
        e.ucTemperatureValue e.ucErrorFlag h0 = mainHEATER_STATE_OFF := by
      rw [he]
      exact heaterProcessCompute_fault _ _ _ _
    simp only [heaterStateRun, hstep, List.mem_cons] at hx
    rcases hx with hx | hx
    · exact hx
    · exact ih mainHEATER_STATE_OFF (fun j hj => hfault j (List.mem_cons_of_mem e hj)) x hx

/-- C2 witness: two faulted cycles starting from heater state `Medium`
both write `Off`. -/
theorem C2_fault_holds_heater_off_witness :
    (∀ e ∈ ([⟨3, 35, 20, true⟩, ⟨1, 25, 30, true⟩] : List HeaterEnv), e.ucErrorFlag = true) ∧
      ∀ x ∈ heaterStateRun mainHEATER_STATE_MEDIUM
          ([⟨3, 35, 20, true⟩, ⟨1, 25, 30, true⟩] : List HeaterEnv),
        x = mainHEATER_STATE_OFF :=
  ⟨by decide, C2_fault_holds_heater_off mainHEATER_STATE_MEDIUM _ (by decide)⟩

/-- C3 (code defect): the diagnostic history append never wraps and
never checks the bound: six successive appends starting from
`ucDiagnosticIndex = 0` write the indices 0..5, of which index 5 is past
the 5-element `xDiagnosticArray`, and leave the index at 6, beyond the
declared capacity — the code does not overwrite the oldest record as the
claimed invariant requires. -/
theorem C3_diagnostic_history_overflow :
    diagWriteIndices 0 6 = [0, 1, 2, 3, 4, 5] ∧
      ¬ ((diagWriteIndices 0 6).all fun i => decide (i < mainDIAGNOSTIC_SIZE)) = true ∧
      diagIndexAfter 0 6 = 6 ∧ mainDIAGNOSTIC_SIZE < diagIndexAfter 0 6 := by
  decide

/-- C4: over any nonempty run of sampler cycles whose readings all lie
outside [5, 40], starting with the error flag clear, exactly one failure
record is pushed to the handoff queue, the error-report semaphore is
given exactly once, and the error flag ends (and stays) set. -/
theorem C4_fault_edge_triggered_once (seat : Nat) (inputs : List SensorInput)
    (hne : inputs ≠ [])
    (hout : ∀ i ∈ inputs,
      i.reading > mainTEMP_MAX_VALID_RANGE ∨ i.reading < mainTEMP_MIN_VALID_RANGE) :
    ((sensorRun seat false inputs).2.filter SensorAction.isPushRecord).length = 1 ∧
      ((sensorRun seat false inputs).2.filter SensorAction.isGiveErrorSemaphore).length = 1 ∧
      (sensorRun seat false inputs).1 = true := by
  cases inputs with
  | nil => exact absurd rfl hne
  | cons i is =>
    have hi : i.reading > mainTEMP_MAX_VALID_RANGE ∨ i.reading < mainTEMP_MIN_VALID_RANGE :=
      hout i (List.mem_cons_self i is)
    have hrest : sensorRun seat true is = (true, []) :=
      sensorRun_flag_held seat is fun j hj => hout j (List.mem_cons_of_mem i hj)
    have hfirst : sensorProcessCycle seat false i =
        (true, [SensorAction.pushRecord
          { uiTimeStamp := i.uiTimeStamp,
            ucFailureCode :=
              if i.reading > mainTEMP_MAX_VALID_RANGE then mainTEMP_OVER_RANGE_FAIL
              else mainTEMP_UNDER_RANGE_FAIL,
            ucFailureSeat := seat, ucHeatingLevel := i.ucHeatingLevel },
          SensorAction.giveErrorSemaphore]) := by
      simp [sensorProcessCycle, hi]
    refine ⟨?_, ?_, ?_⟩ <;>
      simp [sensorRun, hfirst, hrest, SensorAction.isPushRecord,
        SensorAction.isGiveErrorSemaphore]

/-- C4 witness: three cycles stuck at 45 °C produce one record, one
semaphore give, and a set flag. -/
theorem C4_fault_edge_triggered_once_witness :
    (([⟨45, 3, 7⟩, ⟨45, 3, 8⟩, ⟨45, 3, 9⟩] : List SensorInput) ≠ []) ∧
      (∀ i ∈ ([⟨45, 3, 7⟩, ⟨45, 3, 8⟩, ⟨45, 3, 9⟩] : List SensorInput),
        i.reading > mainTEMP_MAX_VALID_RANGE ∨ i.reading < mainTEMP_MIN_VALID_RANGE) ∧
      ((sensorRun mainDRIVER_SEAT_FAIL false
          [⟨45, 3, 7⟩, ⟨45, 3, 8⟩, ⟨45, 3, 9⟩]).2.filter SensorAction.isPushRecord).length = 1 ∧
      ((sensorRun mainDRIVER_SEAT_FAIL false
          [⟨45, 3, 7⟩, ⟨45, 3, 8⟩, ⟨45, 3, 9⟩]).2.filter
            SensorAction.isGiveErrorSemaphore).length = 1 ∧
      (sensorRun mainDRIVER_SEAT_FAIL false [⟨45, 3, 7⟩, ⟨45, 3, 8⟩, ⟨45, 3, 9⟩]).1 = true := by
  refine ⟨by decide, by decide, ?_⟩
  have h := C4_fault_edge_triggered_once mainDRIVER_SEAT_FAIL
    [⟨45, 3, 7⟩, ⟨45, 3, 8⟩, ⟨45, 3, 9⟩] (by decide) (by decide)
  exact ⟨h.1, h.2.1, h.2.2⟩

/-- C5: with the error flag set, the first sampler cycle whose reading
lies in [5, 40] clears the flag and switches the fault LED off directly
in the sampler, with no record push and no semaphore give. -/
theorem C5_recovery_clears_directly (seat lvl ts r : Nat)
    (hin : mainTEMP_MIN_VALID_RANGE ≤ r ∧ r ≤ mainTEMP_MAX_VALID_RANGE) :
    sensorProcessCycle seat true ⟨r, lvl, ts⟩ = (false, [SensorAction.faultLedOff]) := by
  have hno : ¬ (r > mainTEMP_MAX_VALID_RANGE ∨ r < mainTEMP_MIN_VALID_RANGE) := by
    simp only [mainTEMP_MAX_VALID_RANGE, mainTEMP_MIN_VALID_RANGE] at *
    omega
  simp [sensorProcessCycle, hno]

/-- C5 witness: recovery at 20 °C for the driver channel. -/
theorem C5_recovery_clears_directly_witness :
    (mainTEMP_MIN_VALID_RANGE ≤ 20 ∧ 20 ≤ mainTEMP_MAX_VALID_RANGE) ∧
      sensorProcessCycle mainDRIVER_SEAT_FAIL true ⟨20, 2, 9⟩ =
        (false, [SensorAction.faultLedOff]) :=
  ⟨by decide, C5_recovery_clears_directly mainDRIVER_SEAT_FAIL 2 9 20 (by decide)⟩

/-- C6 (counterexample): in the passenger diagnostic task's wake, the
failure record is drained from the handoff queue strictly before the
heater state is forced `Off` — contradicting the claimed
order (force `Off` prior to draining) for that channel. -/
theorem C6_diagnostic_order_counterexample :
    List.indexOf DiagEvent.drainRecord vPassengerDiagnosticCycleEvents <
      List.indexOf DiagEvent.forceHeaterOff vPassengerDiagnosticCycleEvents := by
  decide

/-- C6 (amended): on each wake, the driver diagnostic task forces the
heater `Off`, then drains and appends one record, then asserts the fault
LED; the passenger diagnostic task drains and appends first and forces
the heater `Off` only afterwards, then asserts the fault LED.  In both
tasks the heater is disabled before the fault indicator becomes
externally visible. -/
theorem C6_diagnostic_order_amended :
    vDriverDiagnosticCycleEvents =
        [DiagEvent.forceHeaterOff, DiagEvent.drainRecord, DiagEvent.faultLedOn] ∧
      vPassengerDiagnosticCycleEvents =
        [DiagEvent.drainRecord, DiagEvent.forceHeaterOff, DiagEvent.faultLedOn] ∧
      List.indexOf DiagEvent.forceHeaterOff vDriverDiagnosticCycleEvents <
        List.indexOf DiagEvent.faultLedOn vDriverDiagnosticCycleEvents ∧
      List.indexOf DiagEvent.forceHeaterOff vPassengerDiagnosticCycleEvents <
        List.indexOf DiagEvent.faultLedOn vPassengerDiagnosticCycleEvents := by
  decide

/-- C7: a complete control edge (button ISR plus the button task's wake)
increments the heating level to `(level + 1) mod 4` and recomputes the
desired temperature as the fixed mapping of the new level; four
successive edges from the initial `Off` state produce the
desired-temperature sequence 0, 25, 30, 35, 0. -/
theorem C7_level_cycle_and_mapping :
    (∀ s : LevelState,
      (fullControlEdge s).ucHeatingLevel = (s.ucHeatingLevel + 1) % 4 ∧
        (fullControlEdge s).ucDesiredTemperature =
          specDesiredMapping ((s.ucHeatingLevel + 1) % 4)) ∧
      edgeDesiredTrace levelInitState 4 = [0, 25, 30, 35, 0] := by
  refine ⟨fun s => ?_, by decide⟩
  have h4 : (s.ucHeatingLevel + 1) % 4 = 0 ∨ (s.ucHeatingLevel + 1) % 4 = 1 ∨
      (s.ucHeatingLevel + 1) % 4 = 2 ∨ (s.ucHeatingLevel + 1) % 4 = 3 := by omega
  rcases h4 with h4 | h4 | h4 | h4 <;>
    exact ⟨by simp [fullControlEdge, levelStepRun, mainTOTAL_HEATING_LEVELS],
      by simp [fullControlEdge, levelStepRun, mainTOTAL_HEATING_LEVELS, h4,
        desiredTempUpdate, specDesiredMapping, mainHEATING_LEVEL_OFF, mainHEATING_LEVEL_LOW,
        mainHEATING_LEVEL_MEDIUM, mainHEATING_LEVEL_HIGH, mainDESIRED_TEMP_OFF,
        mainDESIRED_TEMP_LOW, mainDESIRED_TEMP_MEDIUM, mainDESIRED_TEMP_HIGH]⟩

/-- C8 (counterexample): the level increment happens in the button ISR
while the desired-temperature recompute happens later in the button
task, so the state reached right after an ISR edge — before the button
task has run — has `ucHeatingLevel = 1` but `ucDesiredTemperature = 0`,
diverging from the fixed mapping value 25. -/
theorem C8_cache_coherence_counterexample :
    (levelRun levelInitState [LevelStep.isrButtonEdge]).ucDesiredTemperature ≠
      specDesiredMapping (levelRun levelInitState [LevelStep.isrButtonEdge]).ucHeatingLevel := by
  decide

/-- C8 (amended): in every reachable state of the level-selection
pipeline in which no posted button event is still pending (the ISR edge
has been processed by the button task), the cached desired temperature
equals the fixed mapping of the current heating level. -/
theorem C8_cache_coherence_amended (steps : List LevelStep)
    (hq : (levelRun levelInitState steps).eventBitPending = false) :
    (levelRun levelInitState steps).ucDesiredTemperature =
      specDesiredMapping (levelRun levelInitState steps).ucHeatingLevel := by
  have h : LevelCacheInv (levelRun levelInitState steps) :=
    levelRun_inv steps levelInitState ⟨by decide, by intro _; decide⟩
  exact h.2 hq

/-- C8 witness: after an ISR edge followed by the button task's wake,
nothing is pending and the cache agrees with the mapping. -/
theorem C8_cache_coherence_amended_witness :
    (levelRun levelInitState
        [LevelStep.isrButtonEdge, LevelStep.buttonTaskWake]).eventBitPending = false ∧
      (levelRun levelInitState
          [LevelStep.isrButtonEdge, LevelStep.buttonTaskWake]).ucDesiredTemperature =
        specDesiredMapping (levelRun levelInitState
          [LevelStep.isrButtonEdge, LevelStep.buttonTaskWake]).ucHeatingLevel :=
  ⟨by decide, C8_cache_coherence_amended
    [LevelStep.isrButtonEdge, LevelStep.buttonTaskWake] (by decide)⟩

/-- C9 (counterexample): with the shadow copy already `Off` and a fault
that was raised before the run (error flag true on both cycles), both
cycles issue an actuator write: the second cycle re-drives the LEDs even
though the fault merely persists and the computed heater state `Off`
equals the last commanded state — contradicting the claim that no write
is issued in such cycles. -/
theorem C9_write_on_change_counterexample :
    heaterWriteRun 255 mainHEATER_STATE_OFF
        [⟨2, 30, 20, true⟩, ⟨2, 30, 20, true⟩] = [true, true] := by
  decide

/-- C9 (amended): a controller cycle issues an actuator write exactly
when the newly computed heater state differs from the last commanded
state or the error flag is set — i.e. the LEDs are re-driven on every
cycle while a fault is active, not only on the cycle where it became
active. -/
theorem C9_write_on_change_amended (prev h : Nat) (e : HeaterEnv) :
    (heaterTaskStep prev h e).2.2 = true ↔
      ((heaterTaskStep prev h e).1 ≠ prev ∨ e.ucErrorFlag = true) := by
  simp only [heaterTaskStep]
  split_ifs with hc
  · simp only [ne_eq, true_iff]
    rcases hc with hc | hc
    · exact Or.inl fun hx => hc hx.symm
    · exact Or.inr hc
  · simp only [ne_eq, false_iff]
    push_neg at hc ⊢
    exact ⟨hc.1.symm, hc.2⟩

/-- C10: in every state of a channel reachable from system start, the
heating level is one of 0..3 (the only writes are modulo-4 increments),
the desired temperature is one of 0, 25, 30, 35 (the only writes are the
four mapping constants), and the heater state is one of 0..3 (the only
writes are the four named states or the diagnostic `Off`), despite the
raw `uint8` representation. -/
theorem C10_enum_ranges_invariant (seat : Nat) (events : List ChannelEvent) :
    (channelRun seat channelInitState events).ucHeatingLevel ∈ ([0, 1, 2, 3] : List Nat) ∧
      (channelRun seat channelInitState events).ucDesiredTemperature ∈
        ([0, 25, 30, 35] : List Nat) ∧
      (channelRun seat channelInitState events).ucHeaterState ∈ ([0, 1, 2, 3] : List Nat) :=
  channelRun_inv seat events channelInitState ⟨by decide, by decide, by decide⟩
